import Mathlib

/-!
Shallow embedding of the Sports tracking frontend core:
 - the session store reducer and its operations
   (frontend/src/contexts/SessionContext.js),
 - the WebSocket connection manager (WebSocketContext),
 - the real-time tracker subscriber (frontend/src/components/RealTimeTracker.js).

JavaScript numbers are modelled as rationals (ℚ); JSON payloads that match
the documented event contract are modelled as typed values, with the
outcome of the builtin JSON.parse represented as an Option.
-/

namespace Sports

/-- Session record as returned by the REST collaborator and stored by the
session store (id, sport, name, target action count). -/
structure Session where
  id : Nat
  sport : String
  name : String
  target_actions : Nat
deriving DecidableEq, Repr

/-- Settings object from SessionContext's initialState:
feedbackTypes, sensitivity, minConfidence, cameraSource. -/
structure Settings where
  feedbackTypes : List String
  sensitivity : ℚ
  minConfidence : ℚ
  cameraSource : Nat
deriving DecidableEq, Repr

/-- Stats object from SessionContext's initialState:
totalActions, successfulActions, successRate, averageScore. -/
structure Stats where
  totalActions : ℚ
  successfulActions : ℚ
  successRate : ℚ
  averageScore : ℚ
deriving DecidableEq, Repr

/-- A subset of Settings keys, as supplied to UPDATE_SETTINGS; `none` means
the key is absent from the payload object. -/
structure SettingsPatch where
  feedbackTypes : Option (List String) := none
  sensitivity : Option ℚ := none
  minConfidence : Option ℚ := none
  cameraSource : Option Nat := none
deriving DecidableEq, Repr

/-- A subset of Stats keys, as supplied to UPDATE_STATS; `none` means the
key is absent from the payload object. -/
structure StatsPatch where
  totalActions : Option ℚ := none
  successfulActions : Option ℚ := none
  successRate : Option ℚ := none
  averageScore : Option ℚ := none
deriving DecidableEq, Repr

/-- Shallow merge `{...settings, ...patch}` of UPDATE_SETTINGS. -/
def Settings.merge (s : Settings) (p : SettingsPatch) : Settings where
  feedbackTypes := p.feedbackTypes.getD s.feedbackTypes
  sensitivity := p.sensitivity.getD s.sensitivity
  minConfidence := p.minConfidence.getD s.minConfidence
  cameraSource := p.cameraSource.getD s.cameraSource

/-- Shallow merge `{...stats, ...patch}` of UPDATE_STATS. -/
def Stats.merge (s : Stats) (p : StatsPatch) : Stats where
  totalActions := p.totalActions.getD s.totalActions
  successfulActions := p.successfulActions.getD s.successfulActions
  successRate := p.successRate.getD s.successRate
  averageScore := p.averageScore.getD s.averageScore

/-- The session store state held by SessionProvider's useReducer. -/
structure SessionState where
  currentSession : Option Session
  sessions : List Session
  isTracking : Bool
  selectedSport : String
  settings : Settings
  stats : Stats
  loading : Bool
  error : Option String
deriving DecidableEq, Repr

/-- initialState literal of SessionContext.js. -/
def initialState : SessionState where
  currentSession := none
  sessions := []
  isTracking := false
  selectedSport := "basketball"
  settings :=
    { feedbackTypes := ["audio", "visual"]
      sensitivity := 7/10
      minConfidence := 8/10
      cameraSource := 0 }
  stats :=
    { totalActions := 0
      successfulActions := 0
      successRate := 0
      averageScore := 0 }
  loading := false
  error := none

/-- Action union dispatched to sessionReducer, one constructor per case of
its switch statement. -/
inductive SessionAction where
  | setLoading (b : Bool)
  | setError (e : Option String)
  | setSessions (l : List Session)
  | setCurrentSession (s : Session)
  | createSession (s : Session)
  | updateSession (s : Session)
  | setTracking (b : Bool)
  | setSelectedSport (sport : String)
  | updateSettings (p : SettingsPatch)
  | updateStats (p : StatsPatch)
  | resetStats
deriving DecidableEq, Repr

/-- The sessionReducer switch of SessionContext.js, case by case. -/
def sessionReducer (state : SessionState) (action : SessionAction) : SessionState :=
  match action with
  | .setLoading b => { state with loading := b }
  | .setError e => { state with error := e, loading := false }
  | .setSessions l => { state with sessions := l, loading := false }
  | .setCurrentSession s => { state with currentSession := some s }
  | .createSession s =>
      { state with currentSession := some s, sessions := s :: state.sessions }
  | .updateSession s =>
      { state with
          sessions := state.sessions.map fun x => if x.id = s.id then s else x
          currentSession :=
            match state.currentSession with
            | some c => if c.id = s.id then some s else some c
            | none => none }
  | .setTracking b => { state with isTracking := b }
  | .setSelectedSport sport => { state with selectedSport := sport }
  | .updateSettings p => { state with settings := state.settings.merge p }
  | .updateStats p => { state with stats := state.stats.merge p }
  | .resetStats => { state with stats := initialState.stats }

/-- Outcome of a fetch to the REST collaborator: a successful response body,
or the thrown error message. -/
inductive ApiResult (α : Type) where
  | ok (a : α)
  | err (msg : String)
deriving DecidableEq, Repr

/-- createSession of SessionContext.js: dispatches SET_LOADING true, issues
the POST, then dispatches CREATE_SESSION on success or SET_ERROR on failure. -/
def createSessionCall (st : SessionState) (res : ApiResult Session) : SessionState :=
  let st1 := sessionReducer st (.setLoading true)
  match res with
  | .ok s => sessionReducer st1 (.createSession s)
  | .err e => sessionReducer st1 (.setError (some e))

/-- startTracking of SessionContext.js: issues POST /api/tracking/start
unconditionally (no guard on currentSession or connection state), then
dispatches SET_TRACKING true on success or SET_ERROR on failure. The first
component lists the REST requests issued by the call. -/
def startTrackingCall (st : SessionState) (res : ApiResult Unit) :
    List String × SessionState :=
  (["POST /api/tracking/start"],
   match res with
   | .ok _ => sessionReducer st (.setTracking true)
   | .err e => sessionReducer st (.setError (some e)))

/-- stopTracking of SessionContext.js: issues POST /api/tracking/stop, then
dispatches SET_TRACKING false on success or SET_ERROR on failure. -/
def stopTrackingCall (st : SessionState) (res : ApiResult Unit) :
    List String × SessionState :=
  (["POST /api/tracking/stop"],
   match res with
   | .ok _ => sessionReducer st (.setTracking false)
   | .err e => sessionReducer st (.setError (some e)))

/-- Payload of an action_detected frame (action, successful, confidence). -/
structure ActionData where
  action : String
  successful : Bool
  confidence : ℚ
deriving DecidableEq, Repr

/-- handleActionDetected of RealTimeTracker.js, stats part: the UPDATE_STATS
payload it composes from the component's captured `stats` value. All four
fields are absolute values computed by the caller, not deltas. -/
def handleActionDetectedPatch (stats : Stats) (a : ActionData) : StatsPatch :=
  let succ1 : ℚ := stats.successfulActions + (if a.successful then 1 else 0)
  { totalActions := some (stats.totalActions + 1)
    successfulActions := some succ1
    successRate := some (succ1 / (stats.totalActions + 1) * 100)
    averageScore :=
      some ((stats.averageScore * stats.totalActions + a.confidence)
              / (stats.totalActions + 1)) }

/-- Feedback frame payload. -/
structure Feedback where
  kind : String
  message : String
deriving DecidableEq, Repr

/-- An inbound frame after a successful JSON.parse, tagged by the `type`
discriminant of the event contract; `unknown` covers any other tag. -/
inductive InboundMsg where
  | actionDetected (a : ActionData)
  | feedback (f : Feedback)
  | cameraStatus (active : Bool)
  | trackingStatus
  | unknown (tag : String)
deriving DecidableEq, Repr

/-- Camera action of the outbound camera_control command. -/
inductive CameraAction where
  | start
  | stop
deriving DecidableEq, Repr

/-- The outbound command union: currently only camera_control as sent by
RealTimeTracker's handleStartTracking/handleStopTracking. -/
inductive OutboundCommand where
  | cameraControl (a : CameraAction)
deriving DecidableEq, Repr

/-- String form of a camera action. -/
def CameraAction.str : CameraAction → String
  | .start => "start"
  | .stop => "stop"

/-- JSON.stringify of an outbound command object, with keys in the insertion
order used at the send sites. -/
def encodeCommand : OutboundCommand → String
  | .cameraControl a =>
      "\x7b\"type\":\"camera_control\",\"action\":\"" ++ a.str ++ "\"\x7d"

/-- JSON.parse of a wire payload, restricted to the outbound command
contract: any byte string that is not a well-formed camera_control object
decodes to none. -/
def decodeCommand (s : String) : Option OutboundCommand :=
  if s = "\x7b\"type\":\"camera_control\",\"action\":\"start\"\x7d" then
    some (.cameraControl .start)
  else if s = "\x7b\"type\":\"camera_control\",\"action\":\"stop\"\x7d" then
    some (.cameraControl .stop)
  else
    none

/-- WebSocketProvider state (WebSocketContext): the socket reference
(modelled by whether it is non-null), isConnected, reconnectAttempts,
connectionError and lastMessage, together with observable resource
counters: pendingTimers counts reconnect timeouts scheduled and not yet
fired (the source never stores or clears the timeout id), scheduledTotal
counts every reconnect ever scheduled, connectCalls counts invocations of
connect(), and sentFrames logs the payloads passed to socket.send.
closureAttempts is the reconnectAttempts value captured by the connect
closure that created the live socket and its handlers: the onclose handler
and the reconnect timeout close over that render-time value, not over the
authoritative counter, and the timeout re-invokes the very same connect
binding, so the captured value propagates unchanged along the timer-driven
reconnect chain. -/
structure ConnState where
  socket : Bool
  isConnected : Bool
  reconnectAttempts : Nat
  connectionError : Option String
  lastMessage : Option InboundMsg
  pendingTimers : Nat
  scheduledTotal : Nat
  connectCalls : Nat
  closureAttempts : Nat
  sentFrames : List String
deriving DecidableEq, Repr

/-- Initial WebSocketProvider state. -/
def initConn : ConnState where
  socket := false
  isConnected := false
  reconnectAttempts := 0
  connectionError := none
  lastMessage := none
  pendingTimers := 0
  scheduledTotal := 0
  connectCalls := 0
  closureAttempts := 0
  sentFrames := []

/-- MAX_RECONNECT_ATTEMPTS of WebSocketContext. -/
def MAX_RECONNECT_ATTEMPTS : Nat := 5

/-- Events driving the connection manager: caller invocations of connect()
and disconnect(), the WebSocket callbacks (open, message, close, error),
and the firing of a scheduled reconnect timeout. A message event carries
the outcome of JSON.parse on the frame: none when parsing threw. -/
inductive MgrEvent where
  | connectCall
  | wsOpen
  | wsMessage (frame : Option InboundMsg)
  | wsClose (code : Nat)
  | wsError
  | disconnectCall
  | timerFire
deriving DecidableEq, Repr

/-- One step of the connection manager, transcribing the handlers of
WebSocketContext. A manual connectCall invokes the most recently memoized
connect closure, which captures the authoritative attempt counter of that
render; the socket it creates and all its handlers close over that
captured value. onopen sets isConnected, resets the attempt counter,
clears the error and stores the socket. onmessage stores the parsed frame,
or only logs when parsing threw. onclose clears the socket and, when the
code is not 1000 and the counter captured by the socket-creating closure
is below the maximum, schedules a reconnect timeout. onerror sets
connectionError. disconnect() calls socket.close(1000) when a socket
exists and changes no state itself (the resulting close arrives as a later
wsClose 1000 event); it never clears a pending timeout. A firing timer
increments the authoritative counter with the functional updater and
re-invokes the same connect binding it closed over, so the captured value
carried by the new socket is unchanged along the timer chain. -/
def step (st : ConnState) (ev : MgrEvent) : ConnState :=
  match ev with
  | .connectCall =>
      { st with
          connectCalls := st.connectCalls + 1
          closureAttempts := st.reconnectAttempts }
  | .wsOpen =>
      { st with
          isConnected := true
          reconnectAttempts := 0
          connectionError := none
          socket := true }
  | .wsMessage frame =>
      match frame with
      | none => st
      | some m => { st with lastMessage := some m }
  | .wsClose code =>
      let base := { st with isConnected := false, socket := false }
      if code ≠ 1000 ∧ st.closureAttempts < MAX_RECONNECT_ATTEMPTS then
        { base with
            pendingTimers := st.pendingTimers + 1
            scheduledTotal := st.scheduledTotal + 1 }
      else
        base
  | .wsError =>
      { st with connectionError := some "Failed to connect to tracking service" }
  | .disconnectCall => st
  | .timerFire =>
      if st.pendingTimers > 0 then
        { st with
            pendingTimers := st.pendingTimers - 1
            reconnectAttempts := st.reconnectAttempts + 1
            connectCalls := st.connectCalls + 1 }
      else
        st

/-- Run the connection manager over a sequence of events. -/
def runMgr (st : ConnState) (evs : List MgrEvent) : ConnState :=
  evs.foldl step st

/-- sendMessage of WebSocketContext: if a socket exists and isConnected,
JSON.stringify the command and hand it to socket.send, returning true, or
false when send throws (sendOk models whether the transport accepted the
write); otherwise return false with no I/O and no queuing. -/
def sendMessage (st : ConnState) (c : OutboundCommand) (sendOk : Bool) :
    Bool × ConnState :=
  if st.socket ∧ st.isConnected then
    if sendOk then
      (true, { st with sentFrames := st.sentFrames ++ [encodeCommand c] })
    else
      (false, st)
  else
    (false, st)

/-- RealTimeTracker component state (recentActions, currentFeedback,
cameraActive, performanceData) together with the session store it
dispatches into. -/
structure TrackerState where
  cameraActive : Bool
  currentFeedback : Option Feedback
  recentActions : List ActionData
  perfStreak : Nat
  perfSessionActions : Nat
  perfSessionSuccesses : Nat
  perfLastAction : Option ActionData
  store : SessionState
deriving DecidableEq, Repr

/-- handleActionDetected of RealTimeTracker.js: prepends the action to
recentActions (keeping the previous ten-entry window), updates
performanceData, and dispatches the UPDATE_STATS payload composed from the
given captured stats snapshot into the store. -/
def handleActionDetected (ts : TrackerState) (captured : Stats) (a : ActionData) :
    TrackerState :=
  { ts with
      recentActions := a :: ts.recentActions.take 9
      perfLastAction := some a
      perfSessionActions := ts.perfSessionActions + 1
      perfSessionSuccesses :=
        ts.perfSessionSuccesses + (if a.successful then 1 else 0)
      perfStreak := if a.successful then ts.perfStreak + 1 else 0
      store :=
        sessionReducer ts.store (.updateStats (handleActionDetectedPatch captured a)) }

/-- The lastMessage switch of RealTimeTracker's useEffect: action_detected
runs handleActionDetected (here with a fresh snapshot of the store's
stats), feedback sets currentFeedback, camera_status sets cameraActive,
tracking_status and every unrecognized tag fall through with no effect. -/
def handleMessage (ts : TrackerState) (m : InboundMsg) : TrackerState :=
  match m with
  | .actionDetected a => handleActionDetected ts ts.store.stats a
  | .feedback f => { ts with currentFeedback := some f }
  | .cameraStatus b => { ts with cameraActive := b }
  | .trackingStatus => ts
  | .unknown _ => ts

/-- Initial RealTimeTracker component state over the initial store. -/
def initTracker : TrackerState where
  cameraActive := false
  currentFeedback := none
  recentActions := []
  perfStreak := 0
  perfSessionActions := 0
  perfSessionSuccesses := 0
  perfLastAction := none
  store := initialState

/-- Combined state of the connection manager and its subscriber. dirty
records that a setLastMessage commit is pending that the subscriber
effect has not yet observed (JSON.parse yields a fresh object each time,
so the effect dependency on lastMessage registers as changed after every
successful parse). -/
structure PipeState where
  conn : ConnState
  dirty : Bool
  tracker : TrackerState
deriving DecidableEq, Repr

/-- Events of the inbound delivery pipeline: a ws.onmessage invocation
carrying the outcome of JSON.parse on the frame, and a React render
commit, after which the subscriber effect keyed on lastMessage runs. -/
inductive PipeEvent where
  | frame (f : Option InboundMsg)
  | render
deriving DecidableEq, Repr

/-- One step of the inbound delivery pipeline, transcribing the
lastMessage handoff of WebSocketContext and RealTimeTracker. A frame whose
parse threw is only logged. A parsed frame overwrites the single
lastMessage slot and marks it changed. On a render, if lastMessage changed
since the last effect run, the subscriber switch runs once on the current
slot value: a frame overwritten before a render is never delivered to the
subscriber. -/
def pipeStep (p : PipeState) (e : PipeEvent) : PipeState :=
  match e with
  | .frame none => p
  | .frame (some m) =>
      { p with
          conn := { p.conn with lastMessage := some m }
          dirty := true }
  | .render =>
      if p.dirty then
        match p.conn.lastMessage with
        | some m => { p with dirty := false, tracker := handleMessage p.tracker m }
        | none => { p with dirty := false }
      else p

/-- Run the inbound delivery pipeline over a sequence of events. -/
def pipeRun (p : PipeState) (evs : List PipeEvent) : PipeState :=
  evs.foldl pipeStep p

/-- Initial combined pipeline state. -/
def initPipe : PipeState where
  conn := initConn
  dirty := false
  tracker := initTracker

/-- A successful detection event with confidence 1. -/
def eventTrue : ActionData := ⟨"shot", true, 1⟩

/-- Store state after two UPDATE_STATS dispatches whose payloads were both
composed by handleActionDetected from the stats snapshot captured before
either commit was observed (the delivery scenario in which two frames
arrive before the component re-renders). -/
def staleFinal : SessionState :=
  sessionReducer
    (sessionReducer initialState
      (.updateStats (handleActionDetectedPatch initialState.stats eventTrue)))
    (.updateStats (handleActionDetectedPatch initialState.stats eventTrue))

/-- Event trace of n consecutive abnormal closures (code 1006), each
scheduled reconnect timeout firing before the next closure — the
timer-driven reconnect chain. -/
def closeFireTrace : Nat → List MgrEvent
  | 0 => []
  | n + 1 => closeFireTrace n ++ [.wsClose 1006, .timerFire]

/-- Manager state after n rounds of the timer-driven reconnect chain
starting from a freshly connected manager: the authoritative counter and
the scheduled total both reach n, while the captured counter carried along
the chain is still the 0 captured by the socket-creating connect closure. -/
def chainState (n : Nat) : ConnState where
  socket := false
  isConnected := false
  reconnectAttempts := n
  connectionError := none
  lastMessage := none
  pendingTimers := 0
  scheduledTotal := n
  connectCalls := n + 1
  closureAttempts := 0
  sentFrames := []

/-- Manager state after a successful connect: socket present, connected. -/
def connectedConn : ConnState := runMgr initConn [.connectCall, .wsOpen]

/-- Manager state holding one pending reconnect timeout, reached by an
abnormal closure of an established connection. -/
def pendingTimerState : ConnState :=
  runMgr initConn [.connectCall, .wsOpen, .wsClose 1006]

/-- A nonzero stats snapshot accumulated by a previous tracking run. -/
def statsNonzero : Stats :=
  { totalActions := 3
    successfulActions := 2
    successRate := 200/3
    averageScore := 1/2 }

/-- Store state with a current session and nonzero accumulated stats. -/
def runningState : SessionState :=
  { initialState with
      currentSession := some ⟨1, "tennis", "session one", 20⟩
      stats := statsNonzero }

theorem closeFire_chain (n : Nat) :
    runMgr connectedConn (closeFireTrace (n + 1)) = chainState (n + 1) := by
  induction n with
  | zero => decide
  | succ k ih =>
    have hsplit : closeFireTrace (k + 2)
        = closeFireTrace (k + 1) ++ [.wsClose 1006, .timerFire] := rfl
    have happ : runMgr connectedConn (closeFireTrace (k + 2))
        = runMgr (runMgr connectedConn (closeFireTrace (k + 1)))
            [.wsClose 1006, .timerFire] := by
      rw [hsplit]
      simp [runMgr, List.foldl_append]
    rw [happ, ih]
    simp [runMgr, step, chainState, MAX_RECONNECT_ATTEMPTS]

/-- C1: code evaluation at the failing input. Two ActionDetected events are
delivered before a prior commit is observed, so handleActionDetected
composes both UPDATE_STATS payloads from the same captured stats snapshot
(the initial one); the reducer merges caller-supplied absolute values, so
the second dispatch overwrites the first and the final totalActions is 1,
not the 2 the claim requires for N = 2 events. -/
theorem C1_stale_snapshot_overwrite :
    staleFinal.stats.totalActions = 1 ∧ staleFinal.stats.totalActions ≠ 2 := by
  have h : staleFinal.stats.totalActions = 1 := by
    norm_num [staleFinal, sessionReducer, Stats.merge, handleActionDetectedPatch,
      initialState, eventTrue]
  exact ⟨h, by rw [h]; norm_num⟩

/-- C2: code evaluation at the failing input. Along the timer-driven
reconnect chain the onclose handler compares the attempt counter captured
by the socket-creating connect closure — still 0 — so after five abnormal
closures five reconnects have been scheduled, but the sixth abnormal
closure schedules a sixth, and in general n rounds of the chain schedule n
reconnects: the five-attempt bound never takes effect, and no terminal
connection error is ever set (connectionError is still none with the
authoritative counter past the maximum). The one part of the claim the
code does satisfy: a manual connect() that opens successfully resets the
attempt counter to 0. -/
theorem C2_reconnect_unbounded_no_terminal_error :
    (∀ n : Nat, runMgr connectedConn (closeFireTrace (n + 1)) = chainState (n + 1)) ∧
    (runMgr connectedConn (closeFireTrace 5)).scheduledTotal = 5 ∧
    (runMgr connectedConn (closeFireTrace 5 ++ [.wsClose 1006])).scheduledTotal = 6 ∧
    (runMgr connectedConn (closeFireTrace 6)).reconnectAttempts = 6 ∧
    (runMgr connectedConn (closeFireTrace 6)).connectionError = none ∧
    (runMgr (runMgr connectedConn (closeFireTrace 6))
        [.connectCall, .wsOpen]).reconnectAttempts = 0 :=
  ⟨closeFire_chain, by decide, by decide, by decide, by decide, by decide⟩

/-- C3: code evaluation at the failing input. startTracking is invoked on
the initial state, which has no current session (and the connection state
is not consulted at all); the call still issues POST /api/tracking/start
and, on REST success, sets the tracking flag with no error recorded — no
PreconditionError rejection and no guard before the network call, against
the claim. -/
theorem C3_startTracking_no_guard :
    initialState.currentSession = none ∧
    (startTrackingCall initialState (.ok ())).1 = ["POST /api/tracking/start"] ∧
    (startTrackingCall initialState (.ok ())).2.isTracking = true ∧
    (startTrackingCall initialState (.ok ())).2.error = none :=
  ⟨rfl, rfl, rfl, rfl⟩

/-- C4: sendMessage while not connected returns false and leaves the state
untouched (no frame transmitted, nothing queued); while connected with a
live socket it returns true, appends exactly the serialized payload to the
wire, and decoding that payload reproduces the original command. -/
theorem C4_send_gating_roundtrip (st : ConnState) (c : OutboundCommand) (sendOk : Bool) :
    (st.isConnected = false → sendMessage st c sendOk = (false, st)) ∧
    (st.socket = true → st.isConnected = true → sendOk = true →
        (sendMessage st c sendOk).1 = true ∧
        (sendMessage st c sendOk).2.sentFrames = st.sentFrames ++ [encodeCommand c] ∧
        decodeCommand (encodeCommand c) = some c) := by
  constructor
  · intro h
    simp [sendMessage, h]
  · intro h1 h2 h3
    subst h3
    refine ⟨by simp [sendMessage, h1, h2], by simp [sendMessage, h1, h2], ?_⟩
    cases c with
    | cameraControl a => cases a <;> decide

/-- C4 witness: concrete instances — a send on the initial (disconnected)
state fails with no transmission, and a send on a connected state
transmits a payload that decodes back to the command. -/
theorem C4_send_witness :
    sendMessage initConn (.cameraControl .start) true = (false, initConn) ∧
    (sendMessage connectedConn (.cameraControl .stop) true).1 = true ∧
    decodeCommand (encodeCommand (.cameraControl .stop))
      = some (.cameraControl .stop) :=
  ⟨(C4_send_gating_roundtrip initConn (.cameraControl .start) true).1 rfl,
   ((C4_send_gating_roundtrip connectedConn (.cameraControl .stop) true).2
      rfl rfl rfl).1,
   ((C4_send_gating_roundtrip connectedConn (.cameraControl .stop) true).2
      rfl rfl rfl).2.2⟩

/-- C5: code evaluation at the failing input. With a reconnect timeout
pending after an abnormal closure, disconnect() changes nothing (the
socket reference is already null) and in particular does not cancel the
pending timeout, which later fires, increments the attempt counter and
invokes connect() again — a reconnect after disconnect(), against the
claim. The parts that do hold: a normal closure (code 1000) following
disconnect() schedules no reconnect and leaves the manager disconnected,
and disconnect() on a disconnected state is a safe no-op. -/
theorem C5_disconnect_timer_not_cancelled :
    (step pendingTimerState .disconnectCall = pendingTimerState ∧
     pendingTimerState.pendingTimers = 1) ∧
    ((runMgr pendingTimerState [.disconnectCall, .timerFire]).connectCalls
        = pendingTimerState.connectCalls + 1 ∧
     (runMgr pendingTimerState [.disconnectCall, .timerFire]).reconnectAttempts = 1) ∧
    ((runMgr connectedConn [.disconnectCall, .wsClose 1000]).scheduledTotal
        = connectedConn.scheduledTotal ∧
     (runMgr connectedConn [.disconnectCall, .wsClose 1000]).isConnected = false ∧
     step initConn .disconnectCall = initConn) := by
  decide

/-- C6: code evaluation at the failing input, together with the parts of
the claim the code satisfies. A frame whose parse threw is dropped with no
effect at all, an unrecognized type discriminant is a no-op for the
subscriber, and no pipeline event ever touches the connection (parse
errors are non-fatal and never close the channel). But publication is an
asynchronous single-slot handoff, not synchronous in-order delivery: when
an action_detected frame and a camera_status frame arrive before the next
render, the second overwrites the single lastMessage slot and the
action_detected frame is never delivered to the subscriber
(perfSessionActions stays 0 while cameraActive becomes true), whereas the
same two frames separated by a render are both delivered. -/
theorem C6_async_handoff_drops_frames :
    (∀ p : PipeState, pipeStep p (.frame none) = p) ∧
    (∀ (ts : TrackerState) (tag : String), handleMessage ts (.unknown tag) = ts) ∧
    (∀ (p : PipeState) (e : PipeEvent),
        (pipeStep p e).conn.isConnected = p.conn.isConnected ∧
        (pipeStep p e).conn.socket = p.conn.socket) ∧
    (pipeRun initPipe
        [.frame (some (.actionDetected eventTrue)),
         .frame (some (.cameraStatus true)),
         .render]).tracker.perfSessionActions = 0 ∧
    (pipeRun initPipe
        [.frame (some (.actionDetected eventTrue)),
         .frame (some (.cameraStatus true)),
         .render]).tracker.cameraActive = true ∧
    (pipeRun initPipe
        [.frame (some (.actionDetected eventTrue)),
         .render,
         .frame (some (.cameraStatus true)),
         .render]).tracker.perfSessionActions = 1 := by
  refine ⟨fun p => rfl, fun ts tag => rfl, ?_, ?_, ?_, ?_⟩
  · intro p e
    cases e with
    | frame f =>
        cases f with
        | none => exact ⟨rfl, rfl⟩
        | some m => exact ⟨rfl, rfl⟩
    | render =>
        simp only [pipeStep]
        split
        · cases h : p.conn.lastMessage <;> simp [h]
        · exact ⟨rfl, rfl⟩
  · rfl
  · rfl
  · rfl

/-- C7: code evaluation at the failing input. startTracking succeeding on a
state with a current session and nonzero accumulated stats leaves the
stats exactly as they were — no reset to the initial zeros, against the
claim. The reducer does have a RESET_STATS case that would perform the
reset, but no caller ever dispatches it. -/
theorem C7_stats_not_reset :
    (startTrackingCall runningState (.ok ())).2.isTracking = true ∧
    (startTrackingCall runningState (.ok ())).2.stats = statsNonzero ∧
    statsNonzero ≠ initialState.stats ∧
    (sessionReducer runningState .resetStats).stats = initialState.stats := by
  refine ⟨rfl, rfl, ?_, rfl⟩
  intro h
  have h3 : statsNonzero.totalActions = initialState.stats.totalActions := by rw [h]
  norm_num [statsNonzero, initialState] at h3

/-- C8: createSession with a successful API result makes the returned
session current and prepends it to the session list; with a failed API
result the error message is surfaced and both the current session and the
session list are unchanged. -/
theorem C8_createSession_success_failure (st : SessionState) (s : Session) (e : String) :
    ((createSessionCall st (.ok s)).currentSession = some s ∧
     (createSessionCall st (.ok s)).sessions = s :: st.sessions) ∧
    ((createSessionCall st (.err e)).error = some e ∧
     (createSessionCall st (.err e)).currentSession = st.currentSession ∧
     (createSessionCall st (.err e)).sessions = st.sessions) :=
  ⟨⟨rfl, rfl⟩, rfl, rfl, rfl⟩

/-- C9: UPDATE_SETTINGS shallow-merges the supplied keys verbatim into the
settings (absent keys keep their previous values, present keys take the
supplied values with no validation), and every other store field is
unchanged by the transition. -/
theorem C9_updateSettings_frame (st : SessionState) (p : SettingsPatch) :
    (sessionReducer st (.updateSettings p)).settings =
      { feedbackTypes := p.feedbackTypes.getD st.settings.feedbackTypes
        sensitivity := p.sensitivity.getD st.settings.sensitivity
        minConfidence := p.minConfidence.getD st.settings.minConfidence
        cameraSource := p.cameraSource.getD st.settings.cameraSource } ∧
    (sessionReducer st (.updateSettings p)).currentSession = st.currentSession ∧
    (sessionReducer st (.updateSettings p)).sessions = st.sessions ∧
    (sessionReducer st (.updateSettings p)).isTracking = st.isTracking ∧
    (sessionReducer st (.updateSettings p)).selectedSport = st.selectedSport ∧
    (sessionReducer st (.updateSettings p)).stats = st.stats ∧
    (sessionReducer st (.updateSettings p)).loading = st.loading ∧
    (sessionReducer st (.updateSettings p)).error = st.error :=
  ⟨rfl, rfl, rfl, rfl, rfl, rfl, rfl, rfl⟩

/-- C10: UPDATE_STATS commits, in one reducer transition, exactly the
caller-supplied values for the stats fields named in the payload (no
recomputation or validation) while the fields not named keep their
previous values, and every other store field is unchanged. -/
theorem C10_updateStats_frame (st : SessionState) (p : StatsPatch) :
    (sessionReducer st (.updateStats p)).stats =
      { totalActions := p.totalActions.getD st.stats.totalActions
        successfulActions := p.successfulActions.getD st.stats.successfulActions
        successRate := p.successRate.getD st.stats.successRate
        averageScore := p.averageScore.getD st.stats.averageScore } ∧
    (sessionReducer st (.updateStats p)).currentSession = st.currentSession ∧
    (sessionReducer st (.updateStats p)).sessions = st.sessions ∧
    (sessionReducer st (.updateStats p)).isTracking = st.isTracking ∧
    (sessionReducer st (.updateStats p)).selectedSport = st.selectedSport ∧
    (sessionReducer st (.updateStats p)).settings = st.settings ∧
    (sessionReducer st (.updateStats p)).loading = st.loading ∧
    (sessionReducer st (.updateStats p)).error = st.error :=
  ⟨rfl, rfl, rfl, rfl, rfl, rfl, rfl, rfl⟩

end Sports
